import Mathlib

/-!
Verification of the NaCl archive-module dispatcher
(src/unpacker/cpp/module.cc) of chrome-ext-wicked-good-unarchiver.

The file module.cc contains the message dispatcher `NaclArchiveInstance`
(routing inbound JavaScript messages to per-archive `Volume` objects held in
the map `volumes_`) and the outbound message sender
`ModuleJavaScriptMessageSender` (whose `SafePostMessage` wraps every
`PostMessage` call in a lock).

The `Volume` class and `request.h` are not part of the source snapshot, so
calls into `Volume` methods are recorded as abstract effects
(`VolumeCall`), the result of `Volume::Init()` is an environment parameter,
and the wire helpers of `request.h` are modelled by the typed message
records below.

Build-mode semantics: `PP_DCHECK` / `PP_NOTREACHED` are no-ops in release
builds (the deployed configuration).  The model follows release semantics
and records every tripped check in the `dcheckFailed` flag of the step
result.  Dereferencing the `end()` iterator of `volumes_` (which the release
code does when a looked-up id is absent in `OpenFile`, `CloseFile`,
`ReadFile` and the `CLOSE_VOLUME` case) is undefined behavior; the model
marks it with the `ub` flag and gives that step no further effects.
-/

namespace Wgu

/-- Operation codes of the inbound messages.  Modelled from the spec:
request.h is not in the source snapshot; section 6 of the design lists the
seven inbound operations, and module.cc switches on an integer enum whose
concrete values are taken to be sequential from zero. -/
def READ_METADATA : Int := 0

/-- Operation code for a chunk-response message. Modelled from the spec (see
`READ_METADATA`). -/
def READ_CHUNK_DONE : Int := 1

/-- Operation code for a chunk-error message. Modelled from the spec (see
`READ_METADATA`). -/
def READ_CHUNK_ERROR : Int := 2

/-- Operation code for opening a file. Modelled from the spec (see
`READ_METADATA`). -/
def OPEN_FILE : Int := 3

/-- Operation code for closing a file. Modelled from the spec (see
`READ_METADATA`). -/
def CLOSE_FILE : Int := 4

/-- Operation code for reading from an open file. Modelled from the spec (see
`READ_METADATA`). -/
def READ_FILE : Int := 5

/-- Operation code for tearing down a volume. Modelled from the spec (see
`READ_METADATA`). -/
def CLOSE_VOLUME : Int := 6

/-- An inbound message (the `pp::VarDictionary` received by
`HandleMessage`).  The fields hold the values that the `Get`/`AsInt`/
`AsString`/`GetInt64FromString` accessors of module.cc would produce; the
type DCHECKs of the C++ code are subsumed by this typing. -/
structure InMessage where
  operation : Int
  fileSystemId : String
  requestId : String
  archiveSize : Int
  filePath : String
  openRequestId : String
  offset : Int
  length : Int
  chunkBuffer : List Nat
deriving DecidableEq, Repr

/-- An outbound message to JavaScript, one constructor per factory of
request.h used by `ModuleJavaScriptMessageSender`.  Metadata dictionaries
and array buffers are abstracted as lists. -/
inductive OutMessage where
  | fileSystemError (fileSystemId requestId message : String)
  | readChunkRequest (fileSystemId requestId : String) (offset : Int) (bytesToRead : Nat)
  | readMetadataDone (fileSystemId requestId : String) (metadata : List (String × Int))
  | openFileDone (fileSystemId requestId : String)
  | closeFileDone (fileSystemId requestId openRequestId : String)
  | readFileDone (fileSystemId requestId : String) (buffer : List Nat) (hasMoreData : Bool)
deriving DecidableEq, Repr

/-- A call made by the dispatcher into a `Volume` object (whose code is
outside the snapshot).  The first argument is the volume object's
allocation id. -/
inductive VolumeCall where
  | readMetadata (vol : Nat) (requestId : String) (archiveSize : Int)
  | readChunkDone (vol : Nat) (requestId : String) (buffer : List Nat) (readOffset : Int)
  | readChunkError (vol : Nat) (requestId : String)
  | openFile (vol : Nat) (requestId filePath : String) (archiveSize : Int)
  | closeFile (vol : Nat) (requestId openRequestId : String)
  | readFile (vol : Nat) (requestId : String) (dict : InMessage)
deriving DecidableEq, Repr

/-- The registry `std::map<std::string, Volume*> volumes_`, as an
association list from file-system id to volume object id, unique keys. -/
def Registry : Type := List (String × Nat)

/-- Lookup, mirroring `volumes_.find(file_system_id)`. -/
def mapFind (m : List (String × Nat)) (k : String) : Option Nat :=
  match m with
  | [] => none
  | (k0, v0) :: rest => if k0 = k then some v0 else mapFind rest k

/-- Insert-or-assign, mirroring `volumes_[file_system_id] = volume`. -/
def mapInsert (m : List (String × Nat)) (k : String) (v : Nat) : List (String × Nat) :=
  match m with
  | [] => [(k, v)]
  | (k0, v0) :: rest => if k0 = k then (k0, v) :: rest else (k0, v0) :: mapInsert rest k v

/-- Erase, mirroring `volumes_.erase(file_system_id)` (removes the entry
with that key, if present). -/
def mapErase (m : List (String × Nat)) (k : String) : List (String × Nat) :=
  match m with
  | [] => []
  | (k0, v0) :: rest => if k0 = k then rest else (k0, v0) :: mapErase rest k

/-- Number of entries under a key. -/
def countKey (m : List (String × Nat)) (k : String) : Nat :=
  m.countP (fun p => decide (p.1 = k))

/-- The keys of the registry are pairwise distinct (the `std::map`
invariant). -/
def keysNodup (m : List (String × Nat)) : Prop :=
  m.Pairwise (fun a b => a.1 ≠ b.1)

/-- The mutable state of a `NaclArchiveInstance`: the volume registry and an
allocation counter standing for `new Volume(...)` (each `new` yields the
next fresh object id). -/
structure InstanceState where
  volumes : List (String × Nat)
  nextVol : Nat
deriving DecidableEq, Repr

/-- Everything one `HandleMessage` call does: the successor state, the
messages the dispatcher itself sent, the calls into Volume objects, the
volume objects deleted, whether a `PP_DCHECK`/`PP_NOTREACHED` tripped
(release no-op), and whether undefined behavior was reached (dereference of
the `end()` iterator). -/
structure StepResult where
  state : InstanceState
  sent : List OutMessage
  calls : List VolumeCall
  deleted : List Nat
  dcheckFailed : Bool
  ub : Bool
deriving DecidableEq, Repr

/-- `NaclArchiveInstance::ReadMetadata` (module.cc lines 176-198).  The
DCHECK that the id is not yet present trips when it is; release execution
continues: a fresh Volume is constructed, `Init()` is consulted (its result
is the environment parameter `initOk`), on failure one FileSystemError is
sent and the Volume deleted, on success `volumes_[id] = volume` assigns
(insert-or-overwrite) and `Volume::ReadMetadata` is invoked. -/
def readMetadata (st : InstanceState) (msg : InMessage) (initOk : Bool) : StepResult :=
  let dup := (mapFind st.volumes msg.fileSystemId).isSome
  let vol := st.nextVol
  if initOk then
    { state := { volumes := mapInsert st.volumes msg.fileSystemId vol, nextVol := st.nextVol + 1 },
      sent := [],
      calls := [VolumeCall.readMetadata vol msg.requestId msg.archiveSize],
      deleted := [],
      dcheckFailed := dup,
      ub := false }
  else
    { state := { volumes := st.volumes, nextVol := st.nextVol + 1 },
      sent := [OutMessage.fileSystemError msg.fileSystemId msg.requestId
                 ("Could not create a volume for: " ++ msg.fileSystemId ++ ".")],
      calls := [],
      deleted := [vol],
      dcheckFailed := dup,
      ub := false }

/-- `NaclArchiveInstance::ReadChunkDone` (module.cc lines 200-216): an
absent id is silently ignored ("Volume was unmounted so ignore the read
chunk operation"), otherwise the chunk is forwarded to the Volume. -/
def readChunkDone (st : InstanceState) (msg : InMessage) : StepResult :=
  match mapFind st.volumes msg.fileSystemId with
  | none =>
    { state := st, sent := [], calls := [], deleted := [], dcheckFailed := false, ub := false }
  | some vol =>
    { state := st, sent := [],
      calls := [VolumeCall.readChunkDone vol msg.requestId msg.chunkBuffer msg.offset],
      deleted := [], dcheckFailed := false, ub := false }

/-- `NaclArchiveInstance::ReadChunkError` (module.cc lines 218-226): same
absent-id handling as `readChunkDone`. -/
def readChunkError (st : InstanceState) (msg : InMessage) : StepResult :=
  match mapFind st.volumes msg.fileSystemId with
  | none =>
    { state := st, sent := [], calls := [], deleted := [], dcheckFailed := false, ub := false }
  | some vol =>
    { state := st, sent := [],
      calls := [VolumeCall.readChunkError vol msg.requestId],
      deleted := [], dcheckFailed := false, ub := false }

/-- `NaclArchiveInstance::OpenFile` (module.cc lines 228-242): a DCHECK
asserts the id is present; when it is not, release code dereferences the
`end()` iterator (`it->second->OpenFile`), marked here as `ub`. -/
def openFile (st : InstanceState) (msg : InMessage) : StepResult :=
  match mapFind st.volumes msg.fileSystemId with
  | none =>
    { state := st, sent := [], calls := [], deleted := [], dcheckFailed := true, ub := true }
  | some vol =>
    { state := st, sent := [],
      calls := [VolumeCall.openFile vol msg.requestId msg.filePath msg.archiveSize],
      deleted := [], dcheckFailed := false, ub := false }

/-- `NaclArchiveInstance::CloseFile` (module.cc lines 244-255): same
absent-id pattern as `openFile`. -/
def closeFile (st : InstanceState) (msg : InMessage) : StepResult :=
  match mapFind st.volumes msg.fileSystemId with
  | none =>
    { state := st, sent := [], calls := [], deleted := [], dcheckFailed := true, ub := true }
  | some vol =>
    { state := st, sent := [],
      calls := [VolumeCall.closeFile vol msg.requestId msg.openRequestId],
      deleted := [], dcheckFailed := false, ub := false }

/-- `NaclArchiveInstance::ReadFile` (module.cc lines 257-274): DCHECKs that
the length is positive and that the id is present; the whole dictionary is
forwarded to `Volume::ReadFile` regardless of the length check (release). -/
def readFile (st : InstanceState) (msg : InMessage) : StepResult :=
  let lengthOk := decide (0 < msg.length)
  match mapFind st.volumes msg.fileSystemId with
  | none =>
    { state := st, sent := [], calls := [], deleted := [], dcheckFailed := true, ub := true }
  | some vol =>
    { state := st, sent := [],
      calls := [VolumeCall.readFile vol msg.requestId msg],
      deleted := [], dcheckFailed := !lengthOk, ub := false }

/-- The `CLOSE_VOLUME` case of `HandleMessage` (module.cc lines 153-160): a
DCHECK asserts presence; when absent, release code does
`delete it->second` on the `end()` iterator (ub); when present, the Volume
is deleted and the entry erased, with no outbound message. -/
def closeVolume (st : InstanceState) (msg : InMessage) : StepResult :=
  match mapFind st.volumes msg.fileSystemId with
  | none =>
    { state := st, sent := [], calls := [], deleted := [], dcheckFailed := true, ub := true }
  | some vol =>
    { state := { volumes := mapErase st.volumes msg.fileSystemId, nextVol := st.nextVol },
      sent := [], calls := [], deleted := [vol], dcheckFailed := false, ub := false }

/-- `NaclArchiveInstance::HandleMessage` (module.cc lines 108-165): the
switch on the operation code.  The default case is `PP_NOTREACHED()`, a
release no-op recorded as a tripped check. -/
def handleMessage (st : InstanceState) (msg : InMessage) (initOk : Bool) : StepResult :=
  if msg.operation = READ_METADATA then readMetadata st msg initOk
  else if msg.operation = READ_CHUNK_DONE then readChunkDone st msg
  else if msg.operation = READ_CHUNK_ERROR then readChunkError st msg
  else if msg.operation = OPEN_FILE then openFile st msg
  else if msg.operation = CLOSE_FILE then closeFile st msg
  else if msg.operation = READ_FILE then readFile st msg
  else if msg.operation = CLOSE_VOLUME then closeVolume st msg
  else
    { state := st, sent := [], calls := [], deleted := [], dcheckFailed := true, ub := false }

/-! Registry lemmas. -/

theorem mapFind_mapInsert_self (m : List (String × Nat)) (k : String) (v : Nat) :
    mapFind (mapInsert m k v) k = some v := by
  induction m with
  | nil => simp [mapInsert, mapFind]
  | cons p rest ih =>
    obtain ⟨k0, v0⟩ := p
    by_cases h : k0 = k
    · simp [mapInsert, mapFind, h]
    · simp [mapInsert, mapFind, h, ih]

theorem mapInsert_mem (m : List (String × Nat)) (k : String) (v : Nat) :
    ∀ b ∈ mapInsert m k v, b.1 = k ∨ b ∈ m := by
  induction m with
  | nil => simp [mapInsert]
  | cons p rest ih =>
    obtain ⟨k0, v0⟩ := p
    intro b hb
    by_cases h : k0 = k
    · rw [mapInsert, if_pos h, List.mem_cons] at hb
      rcases hb with hb | hb
      · exact Or.inl (by rw [hb]; exact h)
      · exact Or.inr (List.mem_cons_of_mem _ hb)
    · rw [mapInsert, if_neg h, List.mem_cons] at hb
      rcases hb with hb | hb
      · exact Or.inr (by rw [hb]; exact List.mem_cons_self _ _)
      · rcases ih b hb with hk | hm
        · exact Or.inl hk
        · exact Or.inr (List.mem_cons_of_mem _ hm)

theorem keysNodup_mapInsert (m : List (String × Nat)) (k : String) (v : Nat)
    (h : keysNodup m) : keysNodup (mapInsert m k v) := by
  induction m with
  | nil => simp [mapInsert, keysNodup]
  | cons p rest ih =>
    obtain ⟨k0, v0⟩ := p
    rw [keysNodup, List.pairwise_cons] at h
    obtain ⟨hhd, htl⟩ := h
    by_cases hk : k0 = k
    · rw [keysNodup, mapInsert, if_pos hk, List.pairwise_cons]
      exact ⟨fun b hb => hhd b hb, htl⟩
    · rw [keysNodup, mapInsert, if_neg hk, List.pairwise_cons]
      refine ⟨fun b hb => ?_, ih htl⟩
      rcases mapInsert_mem rest k v b hb with hb1 | hb2
      · rw [hb1]; exact hk
      · exact hhd b hb2

theorem mapErase_sublist (m : List (String × Nat)) (k : String) :
    List.Sublist (mapErase m k) m := by
  induction m with
  | nil => simp [mapErase]
  | cons p rest ih =>
    obtain ⟨k0, v0⟩ := p
    by_cases h : k0 = k
    · rw [mapErase, if_pos h]
      exact List.Sublist.cons _ (List.Sublist.refl _)
    · rw [mapErase, if_neg h]
      exact List.Sublist.cons₂ _ ih

theorem keysNodup_mapErase (m : List (String × Nat)) (k : String)
    (h : keysNodup m) : keysNodup (mapErase m k) :=
  List.Pairwise.sublist (mapErase_sublist m k) h

theorem mapFind_eq_none_of_keys_ne (m : List (String × Nat)) (k : String)
    (h : ∀ b ∈ m, b.1 ≠ k) : mapFind m k = none := by
  induction m with
  | nil => rfl
  | cons p rest ih =>
    obtain ⟨k0, v0⟩ := p
    have hk0 : k0 ≠ k := h (k0, v0) (List.mem_cons_self _ _)
    rw [mapFind, if_neg hk0]
    exact ih (fun b hb => h b (List.mem_cons_of_mem _ hb))

theorem mapFind_mapErase_self (m : List (String × Nat)) (k : String)
    (h : keysNodup m) : mapFind (mapErase m k) k = none := by
  induction m with
  | nil => rfl
  | cons p rest ih =>
    obtain ⟨k0, v0⟩ := p
    rw [keysNodup, List.pairwise_cons] at h
    obtain ⟨hhd, htl⟩ := h
    by_cases hk : k0 = k
    · rw [mapErase, if_pos hk]
      exact mapFind_eq_none_of_keys_ne rest k
        (fun b hb => by rw [← hk]; exact (hhd b hb).symm)
    · rw [mapErase, if_neg hk, mapFind, if_neg hk]
      exact ih htl

theorem countKey_cons (p : String × Nat) (rest : List (String × Nat)) (k : String) :
    countKey (p :: rest) k = countKey rest k + if p.1 = k then 1 else 0 := by
  by_cases hp : p.1 = k <;> simp [countKey, List.countP_cons, hp]

theorem countKey_eq_zero_of_keys_ne (m : List (String × Nat)) (k : String)
    (h : ∀ b ∈ m, b.1 ≠ k) : countKey m k = 0 := by
  induction m with
  | nil => rfl
  | cons p rest ih =>
    rw [countKey_cons, if_neg (h p (List.mem_cons_self _ _))]
    rw [ih (fun b hb => h b (List.mem_cons_of_mem _ hb))]

theorem countKey_le_one_of_nodup (m : List (String × Nat)) (k : String)
    (h : keysNodup m) : countKey m k ≤ 1 := by
  induction m with
  | nil => exact Nat.zero_le 1
  | cons p rest ih =>
    rw [keysNodup, List.pairwise_cons] at h
    obtain ⟨hhd, htl⟩ := h
    rw [countKey_cons]
    by_cases hp : p.1 = k
    · have hz : countKey rest k = 0 :=
        countKey_eq_zero_of_keys_ne rest k (fun b hb => by rw [← hp]; exact (hhd b hb).symm)
      rw [hz, if_pos hp]
    · rw [if_neg hp, Nat.add_zero]
      exact ih htl

theorem one_le_countKey_of_mapFind (m : List (String × Nat)) (k : String) (v : Nat)
    (h : mapFind m k = some v) : 1 ≤ countKey m k := by
  induction m with
  | nil => exact absurd h (by simp [mapFind])
  | cons p rest ih =>
    obtain ⟨k0, v0⟩ := p
    rw [countKey_cons]
    by_cases hk : k0 = k
    · simp [hk]
    · rw [mapFind, if_neg hk] at h
      have := ih h
      omega

theorem countKey_mapInsert_of_nodup (m : List (String × Nat)) (k : String) (v : Nat)
    (h : keysNodup m) : countKey (mapInsert m k v) k = 1 :=
  Nat.le_antisymm
    (countKey_le_one_of_nodup _ _ (keysNodup_mapInsert m k v h))
    (one_le_countKey_of_mapFind _ _ v (mapFind_mapInsert_self m k v))

/-! Dispatch lemmas: which branch of the `HandleMessage` switch runs. -/

theorem handleMessage_readMetadata (st : InstanceState) (msg : InMessage) (initOk : Bool)
    (hop : msg.operation = READ_METADATA) :
    handleMessage st msg initOk = readMetadata st msg initOk := by
  simp [handleMessage, hop]

theorem handleMessage_readChunkDone (st : InstanceState) (msg : InMessage) (initOk : Bool)
    (hop : msg.operation = READ_CHUNK_DONE) :
    handleMessage st msg initOk = readChunkDone st msg := by
  simp [handleMessage, hop, READ_METADATA, READ_CHUNK_DONE]

theorem handleMessage_readChunkError (st : InstanceState) (msg : InMessage) (initOk : Bool)
    (hop : msg.operation = READ_CHUNK_ERROR) :
    handleMessage st msg initOk = readChunkError st msg := by
  simp [handleMessage, hop, READ_METADATA, READ_CHUNK_DONE, READ_CHUNK_ERROR]

theorem handleMessage_openFile (st : InstanceState) (msg : InMessage) (initOk : Bool)
    (hop : msg.operation = OPEN_FILE) :
    handleMessage st msg initOk = openFile st msg := by
  simp [handleMessage, hop, READ_METADATA, READ_CHUNK_DONE, READ_CHUNK_ERROR, OPEN_FILE]

theorem handleMessage_closeFile (st : InstanceState) (msg : InMessage) (initOk : Bool)
    (hop : msg.operation = CLOSE_FILE) :
    handleMessage st msg initOk = closeFile st msg := by
  simp [handleMessage, hop, READ_METADATA, READ_CHUNK_DONE, READ_CHUNK_ERROR, OPEN_FILE,
    CLOSE_FILE]

theorem handleMessage_readFile (st : InstanceState) (msg : InMessage) (initOk : Bool)
    (hop : msg.operation = READ_FILE) :
    handleMessage st msg initOk = readFile st msg := by
  simp [handleMessage, hop, READ_METADATA, READ_CHUNK_DONE, READ_CHUNK_ERROR, OPEN_FILE,
    CLOSE_FILE, READ_FILE]

theorem handleMessage_closeVolume (st : InstanceState) (msg : InMessage) (initOk : Bool)
    (hop : msg.operation = CLOSE_VOLUME) :
    handleMessage st msg initOk = closeVolume st msg := by
  simp [handleMessage, hop, READ_METADATA, READ_CHUNK_DONE, READ_CHUNK_ERROR, OPEN_FILE,
    CLOSE_FILE, READ_FILE, CLOSE_VOLUME]

/-! State-preservation lemmas for the per-operation handlers. -/

theorem readChunkDone_state (st : InstanceState) (msg : InMessage) :
    (readChunkDone st msg).state = st := by
  rcases hf : mapFind st.volumes msg.fileSystemId with _ | v <;> simp [readChunkDone, hf]

theorem readChunkError_state (st : InstanceState) (msg : InMessage) :
    (readChunkError st msg).state = st := by
  rcases hf : mapFind st.volumes msg.fileSystemId with _ | v <;> simp [readChunkError, hf]

theorem openFile_state (st : InstanceState) (msg : InMessage) :
    (openFile st msg).state = st := by
  rcases hf : mapFind st.volumes msg.fileSystemId with _ | v <;> simp [openFile, hf]

theorem closeFile_state (st : InstanceState) (msg : InMessage) :
    (closeFile st msg).state = st := by
  rcases hf : mapFind st.volumes msg.fileSystemId with _ | v <;> simp [closeFile, hf]

theorem readFile_state (st : InstanceState) (msg : InMessage) :
    (readFile st msg).state = st := by
  rcases hf : mapFind st.volumes msg.fileSystemId with _ | v <;> simp [readFile, hf]

theorem keysNodup_readMetadata (st : InstanceState) (msg : InMessage) (initOk : Bool)
    (h : keysNodup st.volumes) :
    keysNodup (readMetadata st msg initOk).state.volumes := by
  rcases initOk with _ | _
  · simpa [readMetadata] using h
  · simpa [readMetadata] using keysNodup_mapInsert st.volumes msg.fileSystemId st.nextVol h

theorem keysNodup_closeVolume (st : InstanceState) (msg : InMessage)
    (h : keysNodup st.volumes) :
    keysNodup (closeVolume st msg).state.volumes := by
  rcases hf : mapFind st.volumes msg.fileSystemId with _ | v
  · simpa [closeVolume, hf] using h
  · simpa [closeVolume, hf] using keysNodup_mapErase st.volumes msg.fileSystemId h

/-- Every `HandleMessage` step preserves the unique-keys invariant of the
volume registry. -/
theorem keysNodup_handleMessage (st : InstanceState) (msg : InMessage) (initOk : Bool)
    (h : keysNodup st.volumes) :
    keysNodup (handleMessage st msg initOk).state.volumes := by
  unfold handleMessage
  split_ifs with h0 h1 h2 h3 h4 h5 h6
  · exact keysNodup_readMetadata st msg initOk h
  · rw [readChunkDone_state]; exact h
  · rw [readChunkError_state]; exact h
  · rw [openFile_state]; exact h
  · rw [closeFile_state]; exact h
  · rw [readFile_state]; exact h
  · exact keysNodup_closeVolume st msg h
  · exact h

/-!
The outbound-message sender (module.cc lines 24-86).

`ModuleJavaScriptMessageSender` has one send method per outbound message
kind; each constructs its message through the matching factory of request.h
and hands it to the private `SafePostMessage`, which brackets the single
`pp::Instance::PostMessage` call site between `post_message_lock_.Acquire()`
and `post_message_lock_.Release()`.

The event alphabet below records that bracket, and each send method is
embedded as the event sequence it performs.  Concurrent delivery is
modelled by a transition system over any number of sender threads, each
walking through the acquire/post/release phases of `SafePostMessage` for
the messages in its queue; the lock admits an acquire only when free.
-/

/-- One step of `SafePostMessage`: take the lock, post one message to
JavaScript, release the lock. -/
inductive SendEvent where
  | acquire
  | post (m : OutMessage)
  | release
deriving DecidableEq, Repr

/-- `ModuleJavaScriptMessageSender::SafePostMessage` as its event trace. -/
def safePostMessage (m : OutMessage) : List SendEvent :=
  [SendEvent.acquire, SendEvent.post m, SendEvent.release]

/-- `SendFileSystemError` (module.cc lines 29-34). -/
def sendFileSystemError (fileSystemId requestId message : String) : List SendEvent :=
  safePostMessage (OutMessage.fileSystemError fileSystemId requestId message)

/-- `SendFileChunkRequest` (module.cc lines 36-42). -/
def sendFileChunkRequest (fileSystemId requestId : String) (offset : Int)
    (bytesToRead : Nat) : List SendEvent :=
  safePostMessage (OutMessage.readChunkRequest fileSystemId requestId offset bytesToRead)

/-- `SendReadMetadataDone` (module.cc lines 44-49). -/
def sendReadMetadataDone (fileSystemId requestId : String)
    (metadata : List (String × Int)) : List SendEvent :=
  safePostMessage (OutMessage.readMetadataDone fileSystemId requestId metadata)

/-- `SendOpenFileDone` (module.cc lines 51-55). -/
def sendOpenFileDone (fileSystemId requestId : String) : List SendEvent :=
  safePostMessage (OutMessage.openFileDone fileSystemId requestId)

/-- `SendCloseFileDone` (module.cc lines 57-62). -/
def sendCloseFileDone (fileSystemId requestId openRequestId : String) : List SendEvent :=
  safePostMessage (OutMessage.closeFileDone fileSystemId requestId openRequestId)

/-- `SendReadFileDone` (module.cc lines 64-70). -/
def sendReadFileDone (fileSystemId requestId : String) (buffer : List Nat)
    (hasMoreData : Bool) : List SendEvent :=
  safePostMessage (OutMessage.readFileDone fileSystemId requestId buffer hasMoreData)

/-- The event trace produced when a given outbound message is delivered via
the send method for its kind. -/
def sendEventsOf : OutMessage → List SendEvent
  | OutMessage.fileSystemError a b c => sendFileSystemError a b c
  | OutMessage.readChunkRequest a b o n => sendFileChunkRequest a b o n
  | OutMessage.readMetadataDone a b md => sendReadMetadataDone a b md
  | OutMessage.openFileDone a b => sendOpenFileDone a b
  | OutMessage.closeFileDone a b c => sendCloseFileDone a b c
  | OutMessage.readFileDone a b buf hm => sendReadFileDone a b buf hm

/-- Where a sender thread stands inside `SafePostMessage`: not delivering,
holding the lock before `PostMessage`, or holding it after `PostMessage`
and before `Release`. -/
inductive Phase where
  | idle
  | locked
  | posted
deriving DecidableEq, Repr

/-- A snapshot of all threads delivering outbound messages: each thread's
phase inside `SafePostMessage`, its queue of messages still to deliver, and
the holder of `post_message_lock_` (if any). -/
structure SenderState where
  phase : Nat → Phase
  queue : Nat → List OutMessage
  lock : Option Nat

/-- Interleaved execution of `SafePostMessage` by the sender threads.  An
acquire needs the lock free; the post and release steps follow the thread's
own program order. -/
inductive SenderStep : SenderState → SenderState → Prop where
  | acquire (s : SenderState) (i : Nat)
      (hph : s.phase i = Phase.idle)
      (hq : s.queue i ≠ [])
      (hlock : s.lock = none) :
      SenderStep s
        { phase := Function.update s.phase i Phase.locked, queue := s.queue, lock := some i }
  | post (s : SenderState) (i : Nat)
      (hph : s.phase i = Phase.locked) :
      SenderStep s
        { phase := Function.update s.phase i Phase.posted, queue := s.queue, lock := s.lock }
  | release (s : SenderState) (i : Nat)
      (hph : s.phase i = Phase.posted) :
      SenderStep s
        { phase := Function.update s.phase i Phase.idle,
          queue := Function.update s.queue i ((s.queue i).tail), lock := none }

/-- Reachability in the sender transition system. -/
inductive SenderReach (init : SenderState) : SenderState → Prop where
  | refl : SenderReach init init
  | step {s t : SenderState} : SenderReach init s → SenderStep s t → SenderReach init t

/-- Quiescent start: no thread is inside `SafePostMessage` and the lock is
free. -/
def allIdle (s : SenderState) : Prop :=
  s.lock = none ∧ ∀ i, s.phase i = Phase.idle

/-- The lock discipline of `SafePostMessage`: any thread inside the
acquire/release bracket is the lock holder. -/
def lockInv (s : SenderState) : Prop :=
  ∀ i, s.phase i ≠ Phase.idle → s.lock = some i

theorem lockInv_of_allIdle (s : SenderState) (h : allIdle s) : lockInv s :=
  fun i hi => absurd (h.2 i) hi

theorem lockInv_step (s t : SenderState) (hs : lockInv s) (hstep : SenderStep s t) :
    lockInv t := by
  cases hstep with
  | acquire i hph hq hlock =>
    intro j hj
    dsimp only at hj ⊢
    by_cases hij : j = i
    · rw [hij]
    · rw [Function.update_noteq hij] at hj
      exact absurd (hs j hj) (by rw [hlock]; exact fun hc => Option.noConfusion hc)
  | post i hph =>
    have hli : s.lock = some i := hs i (by rw [hph]; exact fun hc => Phase.noConfusion hc)
    intro j hj
    dsimp only at hj ⊢
    by_cases hij : j = i
    · rw [hij]; exact hli
    · rw [Function.update_noteq hij] at hj
      have hlj := hs j hj
      rw [hli] at hlj
      exact absurd (Option.some.inj hlj.symm) hij
  | release i hph =>
    have hli : s.lock = some i := hs i (by rw [hph]; exact fun hc => Phase.noConfusion hc)
    intro j hj
    dsimp only at hj ⊢
    by_cases hij : j = i
    · rw [hij] at hj
      exact absurd (Function.update_same i Phase.idle s.phase) hj
    · rw [Function.update_noteq hij] at hj
      have hlj := hs j hj
      rw [hli] at hlj
      exact absurd (Option.some.inj hlj.symm) hij

theorem lockInv_reach (init s : SenderState) (h0 : allIdle init)
    (h : SenderReach init s) : lockInv s := by
  induction h with
  | refl => exact lockInv_of_allIdle init h0
  | step hr hstep ih => exact lockInv_step _ _ ih hstep

/-! Concrete states and messages for the closed witness and counterexample
theorems. -/

/-- The instance state with no registered volume. -/
def emptyState : InstanceState := { volumes := [], nextVol := 0 }

/-- An instance state with one registered volume, object id 5 under
file-system id "fs". -/
def oneVolState : InstanceState := { volumes := [("fs", 5)], nextVol := 6 }

/-- A well-formed inbound ReadMetadata message for file system "fs". -/
def baseMsg : InMessage :=
  { operation := READ_METADATA, fileSystemId := "fs", requestId := "r0", archiveSize := 100,
    filePath := "a.txt", openRequestId := "o1", offset := 7, length := 16,
    chunkBuffer := [1, 2] }

/-- A ChunkDone message for "fs". -/
def chunkDoneMsg : InMessage := { baseMsg with operation := READ_CHUNK_DONE }

/-- A ChunkError message for "fs". -/
def chunkErrorMsg : InMessage := { baseMsg with operation := READ_CHUNK_ERROR }

/-- An OpenFile message for "fs". -/
def openFileMsg : InMessage := { baseMsg with operation := OPEN_FILE }

/-- A CloseFile message for "fs". -/
def closeFileMsg : InMessage := { baseMsg with operation := CLOSE_FILE }

/-- A ReadFile message for "fs" with length zero (a contract violation). -/
def zeroLenReadMsg : InMessage := { baseMsg with operation := READ_FILE, length := 0 }

/-- A CloseVolume message for "fs". -/
def closeVolumeMsg : InMessage := { baseMsg with operation := CLOSE_VOLUME }

/-- A message whose operation code matches none of the seven defined
operations. -/
def unknownOpMsg : InMessage := { baseMsg with operation := 99 }

/-! Claim theorems. -/

/-- Claim C1: a ChunkDone or ChunkError event whose archive identifier does
not name a live Volume is silently ignored — no outbound message, no error,
no volume call, no deletion and no registry mutation (and not even a debug
check trips). -/
theorem c1_stale_chunk_event_ignored (st : InstanceState) (msg : InMessage) (initOk : Bool)
    (habs : mapFind st.volumes msg.fileSystemId = none)
    (hop : msg.operation = READ_CHUNK_DONE ∨ msg.operation = READ_CHUNK_ERROR) :
    handleMessage st msg initOk =
      { state := st, sent := [], calls := [], deleted := [], dcheckFailed := false,
        ub := false } := by
  rcases hop with hop | hop
  · rw [handleMessage_readChunkDone st msg initOk hop]
    simp [readChunkDone, habs]
  · rw [handleMessage_readChunkError st msg initOk hop]
    simp [readChunkError, habs]

/-- Claim C1 witness: a concrete stale ChunkDone event on an empty registry
is a complete no-op. -/
theorem c1_stale_chunk_event_ignored_witness :
    handleMessage emptyState chunkDoneMsg true =
      { state := emptyState, sent := [], calls := [], deleted := [], dcheckFailed := false,
        ub := false } :=
  c1_stale_chunk_event_ignored emptyState chunkDoneMsg true (by decide) (Or.inl (by decide))

/-- Claim C2 fails on the code: a ReadMetadata whose id is already
registered does not produce an InconsistentState (or any) error, and the
registry mapping does not stay unchanged — the entry for "fs" is replaced
by a freshly constructed Volume (object id 6 supplanting 5, the old Volume
never being deleted). -/
theorem c2_counterexample :
    oneVolState.volumes = [("fs", 5)] ∧
    (handleMessage oneVolState baseMsg true).sent = [] ∧
    (handleMessage oneVolState baseMsg true).state.volumes = [("fs", 6)] ∧
    (handleMessage oneVolState baseMsg true).deleted = [] := by decide

/-- Claim C2 as amended: a ReadMetadata whose id is already registered only
trips a debug assertion (a release no-op); no error is sent, and when
`Volume::Init` succeeds the registry entry is overwritten with the fresh
Volume, which receives the `ReadMetadata` call, while the old Volume is not
deleted. -/
theorem c2_duplicate_readMetadata (st : InstanceState) (msg : InMessage) (v : Nat)
    (hdup : mapFind st.volumes msg.fileSystemId = some v)
    (hop : msg.operation = READ_METADATA) :
    (handleMessage st msg true).dcheckFailed = true ∧
    (handleMessage st msg true).sent = [] ∧
    mapFind (handleMessage st msg true).state.volumes msg.fileSystemId = some st.nextVol ∧
    (handleMessage st msg true).deleted = [] ∧
    (handleMessage st msg true).calls =
      [VolumeCall.readMetadata st.nextVol msg.requestId msg.archiveSize] := by
  rw [handleMessage_readMetadata st msg true hop]
  refine ⟨?_, ?_, ?_, ?_, ?_⟩ <;> simp [readMetadata, hdup, mapFind_mapInsert_self]

/-- Claim C2 witness: the amended behavior at the concrete duplicate
ReadMetadata. -/
theorem c2_duplicate_readMetadata_witness :
    (handleMessage oneVolState baseMsg true).dcheckFailed = true ∧
    (handleMessage oneVolState baseMsg true).sent = [] ∧
    mapFind (handleMessage oneVolState baseMsg true).state.volumes baseMsg.fileSystemId =
      some oneVolState.nextVol ∧
    (handleMessage oneVolState baseMsg true).deleted = [] ∧
    (handleMessage oneVolState baseMsg true).calls =
      [VolumeCall.readMetadata oneVolState.nextVol baseMsg.requestId baseMsg.archiveSize] :=
  c2_duplicate_readMetadata oneVolState baseMsg 5 (by decide) (by decide)

/-- Claim C3 fails on the code: an OpenFile whose id is absent from the
registry reports no UnknownVolume (or any) error, and the process does not
remain serviceable — after the tripped debug check, release code
dereferences the `end()` iterator (undefined behavior). -/
theorem c3_counterexample :
    (handleMessage emptyState openFileMsg true).sent = [] ∧
    (handleMessage emptyState openFileMsg true).ub = true := by decide

/-- Claim C3 as amended: OpenFile, CloseFile and ReadFile on an absent id
send no error and make no volume call; they trip a debug assertion and in
release reach undefined behavior by dereferencing the `end()` iterator. -/
theorem c3_absent_volume_unhandled (st : InstanceState) (msg : InMessage) (initOk : Bool)
    (habs : mapFind st.volumes msg.fileSystemId = none)
    (hop : msg.operation = OPEN_FILE ∨ msg.operation = CLOSE_FILE ∨
      msg.operation = READ_FILE) :
    handleMessage st msg initOk =
      { state := st, sent := [], calls := [], deleted := [], dcheckFailed := true,
        ub := true } := by
  rcases hop with hop | hop | hop
  · rw [handleMessage_openFile st msg initOk hop]; simp [openFile, habs]
  · rw [handleMessage_closeFile st msg initOk hop]; simp [closeFile, habs]
  · rw [handleMessage_readFile st msg initOk hop]; simp [readFile, habs]

/-- Claim C3 witness: the amended behavior at a concrete CloseFile on an
empty registry. -/
theorem c3_absent_volume_unhandled_witness :
    handleMessage emptyState closeFileMsg true =
      { state := emptyState, sent := [], calls := [], deleted := [], dcheckFailed := true,
        ub := true } :=
  c3_absent_volume_unhandled emptyState closeFileMsg true (by decide)
    (Or.inr (Or.inl (by decide)))

/-- Claim C4 fails on the code: a CloseVolume whose id is absent does not
fail with UnknownVolume — no error is sent, and release code deletes
through the `end()` iterator (undefined behavior, i.e. it may well
crash). -/
theorem c4_counterexample :
    (handleMessage emptyState closeVolumeMsg true).sent = [] ∧
    (handleMessage emptyState closeVolumeMsg true).ub = true := by decide

/-- Claim C4 as amended: CloseVolume on an absent id trips a debug
assertion and reaches undefined behavior with no error sent; on a present
id the entry is erased and the Volume deleted, with nothing sent. -/
theorem c4_closeVolume_absent_and_present (st : InstanceState) (msg : InMessage)
    (initOk : Bool) (hop : msg.operation = CLOSE_VOLUME) :
    (mapFind st.volumes msg.fileSystemId = none →
      handleMessage st msg initOk =
        { state := st, sent := [], calls := [], deleted := [], dcheckFailed := true,
          ub := true }) ∧
    (∀ v, mapFind st.volumes msg.fileSystemId = some v →
      handleMessage st msg initOk =
        { state := { volumes := mapErase st.volumes msg.fileSystemId, nextVol := st.nextVol },
          sent := [], calls := [], deleted := [v], dcheckFailed := false, ub := false }) := by
  rw [handleMessage_closeVolume st msg initOk hop]
  constructor
  · intro habs; simp [closeVolume, habs]
  · intro v hv; simp [closeVolume, hv]

/-- Claim C4 witness: the present-id half at the concrete one-volume
state. -/
theorem c4_closeVolume_witness :
    handleMessage oneVolState closeVolumeMsg true =
      { state := { volumes := mapErase oneVolState.volumes closeVolumeMsg.fileSystemId,
                     nextVol := oneVolState.nextVol },
        sent := [], calls := [], deleted := [5], dcheckFailed := false, ub := false } :=
  (c4_closeVolume_absent_and_present oneVolState closeVolumeMsg true (by decide)).2 5
    (by decide)

/-- Claim C5 fails on the code: a ReadFile with length 0 is neither
rejected nor reported — no error is sent and the request is still forwarded
to the Volume. -/
theorem c5_counterexample :
    zeroLenReadMsg.length = 0 ∧
    (handleMessage oneVolState zeroLenReadMsg true).sent = [] ∧
    (handleMessage oneVolState zeroLenReadMsg true).calls =
      [VolumeCall.readFile 5 zeroLenReadMsg.requestId zeroLenReadMsg] := by decide

/-- Claim C5 as amended: a ReadFile with non-positive length on a
registered volume only trips a debug assertion (release no-op); no error is
reported and the request dictionary is forwarded to `Volume::ReadFile`
regardless. -/
theorem c5_nonpositive_length_forwarded (st : InstanceState) (msg : InMessage) (v : Nat)
    (initOk : Bool)
    (hv : mapFind st.volumes msg.fileSystemId = some v)
    (hop : msg.operation = READ_FILE)
    (hlen : msg.length ≤ 0) :
    handleMessage st msg initOk =
      { state := st, sent := [], calls := [VolumeCall.readFile v msg.requestId msg],
        deleted := [], dcheckFailed := true, ub := false } := by
  rw [handleMessage_readFile st msg initOk hop]
  have hd : decide (0 < msg.length) = false := decide_eq_false (not_lt.mpr hlen)
  simp [readFile, hv, hd]

/-- Claim C5 witness: the amended behavior at the concrete zero-length
ReadFile. -/
theorem c5_nonpositive_length_forwarded_witness :
    handleMessage oneVolState zeroLenReadMsg true =
      { state := oneVolState, sent := [],
        calls := [VolumeCall.readFile 5 zeroLenReadMsg.requestId zeroLenReadMsg],
        deleted := [], dcheckFailed := true, ub := false } :=
  c5_nonpositive_length_forwarded oneVolState zeroLenReadMsg 5 true (by decide) (by decide)
    (by decide)

/-- Claim C6: every outbound message kind is delivered through the single
`SafePostMessage` path (its event trace is exactly the
acquire/post/release bracket), and in any interleaved execution of sender
threads from a quiescent start at most one thread is inside that bracket —
i.e. at most one boundary delivery is in flight — at any instant. -/
theorem c6_outbound_serialized (init s : SenderState)
    (h0 : allIdle init) (h : SenderReach init s) :
    (∀ m : OutMessage, sendEventsOf m = safePostMessage m) ∧
    (∀ i j : Nat, s.phase i ≠ Phase.idle → s.phase j ≠ Phase.idle → i = j) := by
  refine ⟨fun m => by cases m <;> rfl, fun i j hi hj => ?_⟩
  have hInv := lockInv_reach init s h0 h
  have h1 := hInv i hi
  have h2 := hInv j hj
  rw [h1] at h2
  exact Option.some.inj h2

/-- A quiescent sender start: every thread idle, each with one message to
deliver, lock free. -/
def witInit : SenderState :=
  { phase := fun _ => Phase.idle, queue := fun _ => [OutMessage.openFileDone "fs" "r0"],
    lock := none }

/-- The state after thread 0 acquires the post-message lock. -/
def witLocked : SenderState :=
  { phase := Function.update witInit.phase 0 Phase.locked, queue := witInit.queue,
    lock := some 0 }

/-- Claim C6 witness: at the concrete reachable state in which thread 0
holds the lock mid-delivery, the theorem applies (and thread 0 is the only
thread in flight). -/
theorem c6_outbound_serialized_witness :
    sendEventsOf (OutMessage.openFileDone "fs" "r0") =
      safePostMessage (OutMessage.openFileDone "fs" "r0") ∧ (0 : Nat) = 0 := by
  have hreach : SenderReach witInit witLocked :=
    SenderReach.step SenderReach.refl (SenderStep.acquire witInit 0 rfl (by decide) rfl)
  have h := c6_outbound_serialized witInit witLocked ⟨rfl, fun i => rfl⟩ hreach
  exact ⟨h.1 _, h.2 0 0 (by decide) (by decide)⟩

/-- Claim C7: a ReadMetadata for an unregistered id whose Volume
initializes successfully leaves exactly one registry entry under that id,
bound to the fresh Volume, whose `ReadMetadata` is invoked with the request
id and the declared archive size; moreover every dispatcher step preserves
the unique-keys invariant, so an identifier is present at most once at any
time. -/
theorem c7_readMetadata_registers_once (st : InstanceState) (msg : InMessage)
    (_habs : mapFind st.volumes msg.fileSystemId = none)
    (hop : msg.operation = READ_METADATA)
    (hnd : keysNodup st.volumes) :
    countKey (handleMessage st msg true).state.volumes msg.fileSystemId = 1 ∧
    mapFind (handleMessage st msg true).state.volumes msg.fileSystemId = some st.nextVol ∧
    (handleMessage st msg true).calls =
      [VolumeCall.readMetadata st.nextVol msg.requestId msg.archiveSize] ∧
    (∀ (st2 : InstanceState) (msg2 : InMessage) (b : Bool) (k : String),
      keysNodup st2.volumes →
      keysNodup (handleMessage st2 msg2 b).state.volumes ∧
      countKey (handleMessage st2 msg2 b).state.volumes k ≤ 1) := by
  rw [handleMessage_readMetadata st msg true hop]
  refine ⟨?_, ?_, ?_, fun st2 msg2 b k h2 =>
    ⟨keysNodup_handleMessage st2 msg2 b h2,
     countKey_le_one_of_nodup _ k (keysNodup_handleMessage st2 msg2 b h2)⟩⟩
  · simpa [readMetadata] using
      countKey_mapInsert_of_nodup st.volumes msg.fileSystemId st.nextVol hnd
  · simpa [readMetadata] using
      mapFind_mapInsert_self st.volumes msg.fileSystemId st.nextVol
  · simp [readMetadata]

/-- Claim C7 witness: the concrete first ReadMetadata on an empty
registry. -/
theorem c7_readMetadata_registers_once_witness :
    countKey (handleMessage emptyState baseMsg true).state.volumes baseMsg.fileSystemId = 1 ∧
    mapFind (handleMessage emptyState baseMsg true).state.volumes baseMsg.fileSystemId =
      some emptyState.nextVol ∧
    (handleMessage emptyState baseMsg true).calls =
      [VolumeCall.readMetadata emptyState.nextVol baseMsg.requestId baseMsg.archiveSize] := by
  have h := c7_readMetadata_registers_once emptyState baseMsg (by decide) (by decide)
    List.Pairwise.nil
  exact ⟨h.1, h.2.1, h.2.2.1⟩

/-- Claim C8: a CloseVolume on a registered id removes the entry (the id no
longer resolves), deletes the Volume, and sends nothing at all to the
boundary — teardown is fire-and-forget. -/
theorem c8_closeVolume_fire_and_forget (st : InstanceState) (msg : InMessage) (v : Nat)
    (initOk : Bool)
    (hv : mapFind st.volumes msg.fileSystemId = some v)
    (hop : msg.operation = CLOSE_VOLUME)
    (hnd : keysNodup st.volumes) :
    handleMessage st msg initOk =
      { state := { volumes := mapErase st.volumes msg.fileSystemId, nextVol := st.nextVol },
        sent := [], calls := [], deleted := [v], dcheckFailed := false, ub := false } ∧
    mapFind (handleMessage st msg initOk).state.volumes msg.fileSystemId = none := by
  rw [handleMessage_closeVolume st msg initOk hop]
  refine ⟨by simp [closeVolume, hv], ?_⟩
  simpa [closeVolume, hv] using mapFind_mapErase_self st.volumes msg.fileSystemId hnd

/-- Claim C8 witness: the concrete CloseVolume on the one-volume state. -/
theorem c8_closeVolume_fire_and_forget_witness :
    handleMessage oneVolState closeVolumeMsg true =
      { state := { volumes := mapErase oneVolState.volumes closeVolumeMsg.fileSystemId,
                     nextVol := oneVolState.nextVol },
        sent := [], calls := [], deleted := [5], dcheckFailed := false, ub := false } ∧
    mapFind (handleMessage oneVolState closeVolumeMsg true).state.volumes
      closeVolumeMsg.fileSystemId = none :=
  c8_closeVolume_fire_and_forget oneVolState closeVolumeMsg 5 true (by decide) (by decide)
    (by simp [keysNodup, oneVolState])

/-- Claim C9: a ReadMetadata whose Volume fails to initialize sends exactly
one FileSystemError carrying the same archive identifier and request id,
deletes the newly created Volume, adds no registry entry, and makes no
volume call. -/
theorem c9_init_failure_reported (st : InstanceState) (msg : InMessage)
    (hop : msg.operation = READ_METADATA) :
    handleMessage st msg false =
      { state := { volumes := st.volumes, nextVol := st.nextVol + 1 },
        sent := [OutMessage.fileSystemError msg.fileSystemId msg.requestId
                   ("Could not create a volume for: " ++ msg.fileSystemId ++ ".")],
        calls := [], deleted := [st.nextVol],
        dcheckFailed := (mapFind st.volumes msg.fileSystemId).isSome, ub := false } := by
  rw [handleMessage_readMetadata st msg false hop]
  simp [readMetadata]

/-- Claim C9 witness: the concrete failing-Init ReadMetadata on an empty
registry. -/
theorem c9_init_failure_reported_witness :
    handleMessage emptyState baseMsg false =
      { state := { volumes := emptyState.volumes, nextVol := emptyState.nextVol + 1 },
        sent := [OutMessage.fileSystemError baseMsg.fileSystemId baseMsg.requestId
                   ("Could not create a volume for: " ++ baseMsg.fileSystemId ++ ".")],
        calls := [], deleted := [emptyState.nextVol],
        dcheckFailed := (mapFind emptyState.volumes baseMsg.fileSystemId).isSome,
        ub := false } :=
  c9_init_failure_reported emptyState baseMsg (by decide)

/-- Claim C10: an inbound message whose operation code is none of the seven
defined operations falls into the `PP_NOTREACHED` default case: the
registry is untouched, no volume is called or deleted and nothing is sent
(only the debug check trips, a release no-op). -/
theorem c10_unknown_operation_noop (st : InstanceState) (msg : InMessage) (initOk : Bool)
    (h : ¬(msg.operation = READ_METADATA ∨ msg.operation = READ_CHUNK_DONE ∨
        msg.operation = READ_CHUNK_ERROR ∨ msg.operation = OPEN_FILE ∨
        msg.operation = CLOSE_FILE ∨ msg.operation = READ_FILE ∨
        msg.operation = CLOSE_VOLUME)) :
    handleMessage st msg initOk =
      { state := st, sent := [], calls := [], deleted := [], dcheckFailed := true,
        ub := false } := by
  push_neg at h
  obtain ⟨h0, h1, h2, h3, h4, h5, h6⟩ := h
  simp [handleMessage, h0, h1, h2, h3, h4, h5, h6]

/-- Claim C10 witness: the concrete message with operation code 99. -/
theorem c10_unknown_operation_noop_witness :
    handleMessage oneVolState unknownOpMsg true =
      { state := oneVolState, sent := [], calls := [], deleted := [], dcheckFailed := true,
        ub := false } :=
  c10_unknown_operation_noop oneVolState unknownOpMsg true (by decide)

end Wgu
